import Mathlib

/-!
Verification of the order/payment/webhook reconciliation core of an
e-commerce backend (TypeScript + MySQL).  The Lean definitions below are a
shallow embedding of the relevant source functions:

* src/src/services/freeGiftService.ts  (applyFreeGiftRules,
  validateAndApplyFreeGift, getFreeGiftProduct, isFreeGift)
* src/src/controllers/orderController.ts  (createOrder)
* src/src/services/paymentService.ts  (createPayment,
  createPaymentFallback, createPaymentRecord, handleWebhook)
* the SMS service  (sendNotification / sendSMS)

Currency amounts and JS numbers are modelled as exact rationals.
Database tables are lists of rows; SQL statements become list operations.
Each `await query(...)` can throw at runtime, so the operations that the
claims quantify over carry an explicit fault parameter selecting which
statement (if any) throws; `noFault` is the normal execution.
External collaborators (payment gateway, SMS provider) are oracles passed
as parameters.
-/

/-- payment_status column of the orders table: pending | paid | failed. -/
inductive OrderPayStatus
  | pending
  | paid
  | failed
deriving DecidableEq, Repr

/-- fulfill_status column of the orders table. -/
inductive FulfillStatus
  | pending
  | processing
  | shipped
  | completed
  | cancelled
deriving DecidableEq, Repr

/-- status column of the payments table: pending | success | failed. -/
inductive PaymentStatus
  | pending
  | success
  | failed
deriving DecidableEq, Repr

/-- A cart line (CartItem in src/src/types): product id, quantity, unit price. -/
structure CartItem where
  product_id : Nat
  quantity : ℚ
  unit_price : ℚ
deriving DecidableEq, Repr

/-- A products-table row, restricted to the columns the core flow reads. -/
structure Product where
  id : Nat
  price : ℚ
  is_active : Bool
  is_free_gift : Bool
deriving DecidableEq, Repr

/-- The FreeGiftService configuration read from the environment:
FREE_GIFT_PRODUCT_ID and FREE_GIFT_MIN_SUBTOTAL. -/
structure FreeGiftConfig where
  freeGiftProductId : Nat
  minSubtotal : ℚ
deriving DecidableEq, Repr

/-- getFreeGiftProduct: SELECT * FROM products WHERE id = ? AND is_free_gift = true,
returning the first row or null (null also on a query error). -/
def getFreeGiftProduct (cfg : FreeGiftConfig) (store : List Product) : Option Product :=
  store.find? (fun p => p.id == cfg.freeGiftProductId && p.is_free_gift)

/-- The synthesized free-gift cart line: quantity 1, unit price 0. -/
def freeGiftLine (cfg : FreeGiftConfig) : CartItem :=
  { product_id := cfg.freeGiftProductId, quantity := 1, unit_price := 0 }

/-- Subtotal of a cart excluding the configured gift product:
cartItems.filter(product_id !== giftId).reduce((sum, i) => sum + i.unit_price * i.quantity, 0). -/
def cartSubtotalExcludingGift (giftId : Nat) (items : List CartItem) : ℚ :=
  (items.filter (fun i => i.product_id != giftId)).foldl
    (fun sum i => sum + i.unit_price * i.quantity) 0

/-- cartItems.findIndex(i => i.product_id === giftId) !== -1. -/
def hasFreeGift (giftId : Nat) (items : List CartItem) : Bool :=
  items.any (fun i => i.product_id == giftId)

/-- cartItems.splice(freeGiftIndex, 1) where freeGiftIndex is the first index
holding the gift product: drop the first gift line. -/
def removeFirstGift (giftId : Nat) : List CartItem → List CartItem
  | [] => []
  | it :: rest =>
    if it.product_id == giftId then rest
    else it :: removeFirstGift giftId rest

/-- cartItems[freeGiftIndex].quantity = 1; cartItems[freeGiftIndex].unit_price = 0
at the first index holding the gift product. -/
def forceFirstGift (giftId : Nat) : List CartItem → List CartItem
  | [] => []
  | it :: rest =>
    if it.product_id == giftId then { it with quantity := 1, unit_price := 0 } :: rest
    else it :: forceFirstGift giftId rest

/-- The branch logic of applyFreeGiftRules once the gift product lookup has
succeeded (lines 41-72 of freeGiftService.ts). -/
def applyFreeGiftCore (cfg : FreeGiftConfig) (cartItems : List CartItem) : List CartItem :=
  if cfg.minSubtotal ≤ cartSubtotalExcludingGift cfg.freeGiftProductId cartItems ∧
      hasFreeGift cfg.freeGiftProductId cartItems = false then
    cartItems ++ [freeGiftLine cfg]
  else if ¬ cfg.minSubtotal ≤ cartSubtotalExcludingGift cfg.freeGiftProductId cartItems ∧
      hasFreeGift cfg.freeGiftProductId cartItems = true then
    removeFirstGift cfg.freeGiftProductId cartItems
  else if hasFreeGift cfg.freeGiftProductId cartItems = true then
    forceFirstGift cfg.freeGiftProductId cartItems
  else
    cartItems

/-- applyFreeGiftRules: if the gift product lookup returns null the cart is
returned unchanged, otherwise the add/remove/normalize branch logic runs. -/
def applyFreeGiftRules (cfg : FreeGiftConfig) (store : List Product)
    (cartItems : List CartItem) : List CartItem :=
  match getFreeGiftProduct cfg store with
  | none => cartItems
  | some _ => applyFreeGiftCore cfg cartItems

/-- The validation loop of validateAndApplyFreeGift: skip gift lines, look every
other line's product up, reject missing or inactive products, and re-price the
line from the store. -/
def validateCartItems (cfg : FreeGiftConfig) (store : List Product) :
    List CartItem → Except String (List CartItem)
  | [] => .ok []
  | item :: rest =>
    if item.product_id == cfg.freeGiftProductId then
      validateCartItems cfg store rest
    else
      match store.find? (fun p => p.id == item.product_id) with
      | none => .error ("Product not found: " ++ toString item.product_id)
      | some product =>
        if product.is_active = false then
          .error ("Product is not active: " ++ toString item.product_id)
        else
          match validateCartItems cfg store rest with
          | .error e => .error e
          | .ok tail =>
            .ok ({ product_id := item.product_id, quantity := item.quantity,
                   unit_price := product.price } :: tail)

/-- validateAndApplyFreeGift: server-side validation followed by the gift rule. -/
def validateAndApplyFreeGift (cfg : FreeGiftConfig) (store : List Product)
    (cartItems : List CartItem) : Except String (List CartItem) :=
  match validateCartItems cfg store cartItems with
  | .error e => .error e
  | .ok validated => .ok (applyFreeGiftRules cfg store validated)

/-- freeGiftService.isFreeGift. -/
def isFreeGift (cfg : FreeGiftConfig) (productId : Nat) : Bool :=
  productId == cfg.freeGiftProductId

/-- An orders-table row (columns written by createOrder and read or written by
the webhook reconciler). -/
structure OrderRow where
  id : Nat
  order_number : String
  customer_phone : String
  customer_email : String
  customer_name : String
  shipping_address_line : String
  province : String
  district : String
  subdistrict : String
  postal_code : String
  total_amount : ℚ
  payment_status : OrderPayStatus
  fulfill_status : FulfillStatus
deriving DecidableEq, Repr

/-- An order_items-table row. -/
structure OrderItemRow where
  order_id : Nat
  product_id : Nat
  quantity : ℚ
  unit_price : ℚ
  total_price : ℚ
  is_free_gift : Bool
deriving DecidableEq, Repr

/-- The webhook payload shape accepted by handleWebhook; every field is
optional because extraction must not throw on missing keys. -/
structure WebhookPayload where
  transaction_id : Option String
  id : Option String
  order_id : Option String
  order_number : Option String
  status : Option String
  payment_status : Option String
  amount : Option ℚ
deriving DecidableEq, Repr

/-- A payments-table row.  raw_response stores the JSON payload the reconciler
received (modelled as the payload value itself); created_at orders rows in time. -/
structure PaymentRow where
  id : Nat
  order_id : Nat
  gateway : String
  amount : ℚ
  gateway_transaction_id : Option String
  status : PaymentStatus
  raw_response : Option WebhookPayload
  created_at : Nat
deriving DecidableEq, Repr

/-- The ledger store: each table is the list of its rows in insertion order. -/
structure DB where
  products : List Product
  orders : List OrderRow
  order_items : List OrderItemRow
  payments : List PaymentRow
deriving DecidableEq, Repr

/-- JavaScript a || b on optional strings: undefined and the empty string are
falsy and fall through to the second operand. -/
def jsStrOr (a b : Option String) : Option String :=
  match a with
  | some s => if s == "" then b else some s
  | none => b

/-- SELECT id FROM orders WHERE order_number = ? (rows[0]); a missing order
number parameter matches no row. -/
def findOrderByNumber (db : DB) (orderNumber : Option String) : Option OrderRow :=
  match orderNumber with
  | none => none
  | some num => db.orders.find? (fun o => o.order_number == num)

/-- The row targeted by UPDATE payments ... WHERE order_id = ?
ORDER BY created_at DESC LIMIT 1: among the order's payments, the first row
carrying the maximal created_at. -/
def latestPayment (payments : List PaymentRow) (orderId : Nat) : Option PaymentRow :=
  (payments.filter (fun p => p.order_id == orderId)).foldl
    (fun acc p =>
      match acc with
      | none => some p
      | some q => if q.created_at < p.created_at then some p else some q)
    none

/-- UPDATE payments SET gateway_transaction_id = ?, status = ?, raw_response = ?
WHERE order_id = ? ORDER BY created_at DESC LIMIT 1. -/
def updateLatestPayment (payments : List PaymentRow) (orderId : Nat)
    (txn : Option String) (st : PaymentStatus) (raw : WebhookPayload) : List PaymentRow :=
  match latestPayment payments orderId with
  | none => payments
  | some target =>
    payments.map (fun p =>
      if p.id == target.id then
        { p with gateway_transaction_id := txn, status := st, raw_response := some raw }
      else p)

/-- UPDATE orders SET payment_status = ? WHERE id = ?. -/
def updateOrderPaymentStatus (orders : List OrderRow) (orderId : Nat)
    (st : OrderPayStatus) : List OrderRow :=
  orders.map (fun o => if o.id == orderId then { o with payment_status := st } else o)

/-- Outcome of the external SMS provider call inside smsService.sendSMS. -/
inductive SmsProviderOutcome
  | ok
  | throws (msg : String)
deriving DecidableEq, Repr

/-- smsService.sendSMS: the whole body runs in a try/catch, so a provider
failure is converted into a returned false and is never re-thrown. -/
def sendSMS (provider : SmsProviderOutcome) (phone message : String) :
    Except String Bool :=
  match provider with
  | .ok => .ok true
  | .throws _ => .ok false

/-- smsService.sendNotification delegates to sendSMS. -/
def sendNotification (provider : SmsProviderOutcome) (phone message : String) :
    Except String Bool :=
  sendSMS provider phone message

/-- Which query inside handleWebhook throws at runtime (fault injection for the
sequential UPDATE statements). -/
inductive WebhookFault
  | noFault
  | orderUpdateThrows
deriving DecidableEq, Repr

/-- The value handleWebhook resolves with. -/
structure WebhookResult where
  success : Bool
  orderId : Option Nat
deriving DecidableEq, Repr

/-- The reconciler's payment-status normalization:
status === 'success' ? 'success' : 'failed'. -/
def normalizePaymentStatus (s : Option String) : PaymentStatus :=
  if s == some "success" then .success else .failed

/-- The reconciler's order-status normalization:
status === 'success' ? 'paid' : 'failed'. -/
def normalizeOrderStatus (s : Option String) : OrderPayStatus :=
  if s == some "success" then .paid else .failed

/-- The store after the reconciler's first UPDATE (the payments statement). -/
def paymentUpdatedDB (db : DB) (payload : WebhookPayload) (orderId : Nat) : DB :=
  { db with payments := updateLatestPayment db.payments orderId (jsStrOr payload.transaction_id payload.id) (normalizePaymentStatus (jsStrOr payload.status payload.payment_status)) payload }

/-- The store after both of the reconciler's UPDATE statements. -/
def reconciledDB (db : DB) (payload : WebhookPayload) (orderId : Nat) : DB :=
  { paymentUpdatedDB db payload orderId with orders := updateOrderPaymentStatus db.orders orderId (normalizeOrderStatus (jsStrOr payload.status payload.payment_status)) }

/-- paymentService.handleWebhook: extract fields tolerantly, look the order up
by its business key, update the most recent payment row, update the order's
payment_status, and on success fire the SMS notification; any thrown error is
caught and reported as success := false with the store left as it was at the
point of the throw. -/
def handleWebhook (fault : WebhookFault) (provider : SmsProviderOutcome)
    (db : DB) (payload : WebhookPayload) : WebhookResult × DB :=
  let statusQ := jsStrOr payload.status payload.payment_status
  match findOrderByNumber db (jsStrOr payload.order_id payload.order_number) with
  | none => ({ success := false, orderId := none }, db)
  | some order =>
    let db1 : DB := paymentUpdatedDB db payload order.id
    match fault with
    | .orderUpdateThrows => ({ success := false, orderId := none }, db1)
    | .noFault =>
      let db2 : DB := reconciledDB db payload order.id
      if statusQ == some "success" then
        match db2.orders.find? (fun o => o.id == order.id) with
        | none => ({ success := true, orderId := some order.id }, db2)
        | some orow =>
          match sendNotification provider orow.customer_phone
              ("Payment successful for order " ++ orow.order_number ++
                ". Thank you for your purchase!") with
          | .ok _ => ({ success := true, orderId := some order.id }, db2)
          | .error _ => ({ success := false, orderId := none }, db2)
      else
        ({ success := true, orderId := some order.id }, db2)

/-- Payment method accepted by createPayment. -/
inductive PayMethod
  | qr
  | card
deriving DecidableEq, Repr

/-- The PaymentResponse shape returned by createPayment; optional fields model
undefined. -/
structure PaymentResponse where
  paymentUrl : String
  qrCode : Option String
  transactionId : String
  token : String
  options : Option String
deriving DecidableEq, Repr

/-- Outcomes of the two gateway HTTP calls the configured createPayment path
makes (createPaymentToken and getPaymentOptions). -/
structure GatewayOracle where
  tokenResult : Except String String
  optionsResult : Except String String
deriving Repr

/-- The gateway column value derived from the method. -/
def methodGateway (method : PayMethod) : String :=
  if method == PayMethod.qr then "tmw" else "card"

/-- The row inserted by createPaymentRecord: status pending, no gateway
transaction id yet. -/
def pendingPaymentRow (orderId : Nat) (gateway : String) (amount : ℚ)
    (newId now : Nat) : PaymentRow :=
  { id := newId, order_id := orderId, gateway := gateway, amount := amount,
    gateway_transaction_id := none, status := .pending,
    raw_response := none, created_at := now }

/-- createPaymentRecord: INSERT INTO payments (order_id, gateway, amount,
status, ...) VALUES (?, ?, ?, 'pending', ...), returning the fresh insertId. -/
def createPaymentRecord (db : DB) (orderId : Nat) (gateway : String) (amount : ℚ)
    (newId now : Nat) : Nat × DB :=
  (newId,
    { db with payments := db.payments ++ [pendingPaymentRow orderId gateway amount newId now] })

/-- createPaymentFallback: insert a pending payment row and return the marked
fallback response built from the mock token MOCK-<paymentId>-<Date.now()>. -/
def createPaymentFallback (order : OrderRow) (method : PayMethod) (db : DB)
    (newId now : Nat) : PaymentResponse × DB :=
  let r := createPaymentRecord db order.id (methodGateway method) order.total_amount newId now
  let mockToken := "MOCK-" ++ toString r.1 ++ "-" ++ toString now
  ({ paymentUrl := "#fallback-" ++ mockToken, qrCode := none,
     transactionId := mockToken, token := mockToken, options := none }, r.2)

/-- paymentService.createPayment: with unconfigured credentials go straight to
the fallback path; otherwise insert the pending payment row, call the gateway
for a token (falling back on error, which inserts a second row), fetch options
(errors tolerated), and shape the public response. -/
def createPayment (configured : Bool) (gw : GatewayOracle) (baseUrl : String)
    (order : OrderRow) (method : PayMethod) (db : DB) (newId newId2 now : Nat) :
    PaymentResponse × DB :=
  if configured = false then
    createPaymentFallback order method db newId now
  else
    let r := createPaymentRecord db order.id (methodGateway method) order.total_amount newId now
    match gw.tokenResult with
    | .error _ => createPaymentFallback order method r.2 newId2 now
    | .ok token =>
      let options : Option String :=
        match gw.optionsResult with
        | .ok o => some o
        | .error _ => none
      ({ paymentUrl := baseUrl ++ "/merchantapi/v2/payment?token=" ++ token,
         qrCode := none, transactionId := token, token := token,
         options := options }, r.2)

/-- The checkout request body of POST /api/orders. -/
structure CreateOrderRequest where
  phone : String
  email : String
  customer_name : String
  address_line : String
  province : String
  district : String
  subdistrict : String
  postal_code : String
  cart_items : List CartItem
deriving DecidableEq, Repr

/-- The required-field loop of createOrder: the first missing (falsy, i.e.
empty) string field, in the order the controller checks them. -/
def requiredFieldsCheck (req : CreateOrderRequest) : Option String :=
  if req.phone == "" then some "phone"
  else if req.email == "" then some "email"
  else if req.customer_name == "" then some "customer_name"
  else if req.address_line == "" then some "address_line"
  else if req.province == "" then some "province"
  else if req.district == "" then some "district"
  else if req.subdistrict == "" then some "subdistrict"
  else if req.postal_code == "" then some "postal_code"
  else none

/-- totalAmount = validatedCartItems.reduce((sum, i) => sum + i.unit_price * i.quantity, 0). -/
def cartTotal (items : List CartItem) : ℚ :=
  items.foldl (fun sum i => sum + i.unit_price * i.quantity) 0

/-- The order_items rows inserted by the createOrder loop: one per validated
cart line, total_price = unit_price * quantity, gift lines flagged. -/
def orderItemRows (cfg : FreeGiftConfig) (orderId : Nat) (items : List CartItem) :
    List OrderItemRow :=
  items.map (fun item =>
    { order_id := orderId, product_id := item.product_id, quantity := item.quantity,
      unit_price := item.unit_price, total_price := item.unit_price * item.quantity,
      is_free_gift := isFreeGift cfg item.product_id })

/-- The orders-table row inserted by createOrder: payment_status pending,
fulfill_status pending. -/
def newOrderRow (req : CreateOrderRequest) (orderNumber : String) (newOrderId : Nat)
    (totalAmount : ℚ) : OrderRow :=
  { id := newOrderId, order_number := orderNumber, customer_phone := req.phone,
    customer_email := req.email, customer_name := req.customer_name,
    shipping_address_line := req.address_line, province := req.province,
    district := req.district, subdistrict := req.subdistrict,
    postal_code := req.postal_code, total_amount := totalAmount,
    payment_status := .pending, fulfill_status := .pending }

/-- Which statement inside the createOrder transaction throws at runtime. -/
inductive TxFault
  | noFault
  | orderInsertThrows
  | itemInsertThrows (idx : Nat)
deriving DecidableEq, Repr

/-- Whether a createOrder fault actually fires when the transaction inserts
one order row and itemCount item rows. -/
def TxFault.fires : TxFault → Nat → Prop
  | .noFault, _ => False
  | .orderInsertThrows, _ => True
  | .itemInsertThrows idx, itemCount => idx < itemCount

/-- The store after the createOrder transaction commits: the new order row and
one order_items row per validated cart line, total_amount = cartTotal. -/
def committedDB (cfg : FreeGiftConfig) (req : CreateOrderRequest)
    (orderNumber : String) (newOrderId : Nat) (db : DB) (items : List CartItem) : DB :=
  { db with
    orders := db.orders ++ [newOrderRow req orderNumber newOrderId (cartTotal items)]
    order_items := db.order_items ++ orderItemRows cfg newOrderId items }

/-- How createOrder rejects or fails. -/
inductive CreateOrderError
  | missingField (field : String)
  | emptyCart
  | validationError (msg : String)
  | txFailed
deriving DecidableEq, Repr

/-- The success body of createOrder. -/
structure CreateOrderOk where
  orderId : Nat
  orderNumber : String
  totalAmount : ℚ
deriving DecidableEq, Repr

/-- orderController.createOrder: validate required fields and the non-empty
cart, run the server-side gift validation (before the transaction), compute the
total, then in one transaction insert the order row and one order_items row per
line; any statement throwing inside the transaction rolls the whole transaction
back, leaving the store untouched. -/
def createOrder (cfg : FreeGiftConfig) (fault : TxFault) (req : CreateOrderRequest)
    (orderNumber : String) (newOrderId : Nat) (db : DB) :
    Except CreateOrderError CreateOrderOk × DB :=
  match requiredFieldsCheck req with
  | some f => (.error (.missingField f), db)
  | none =>
    if req.cart_items.isEmpty then (.error .emptyCart, db)
    else
      match validateAndApplyFreeGift cfg db.products req.cart_items with
      | .error msg => (.error (.validationError msg), db)
      | .ok validatedCartItems =>
        match fault with
        | .orderInsertThrows => (.error .txFailed, db)
        | .itemInsertThrows idx =>
          if idx < validatedCartItems.length then
            (.error .txFailed, db)
          else
            (.ok { orderId := newOrderId, orderNumber := orderNumber,
                   totalAmount := cartTotal validatedCartItems },
             committedDB cfg req orderNumber newOrderId db validatedCartItems)
        | .noFault =>
          (.ok { orderId := newOrderId, orderNumber := orderNumber,
                 totalAmount := cartTotal validatedCartItems },
           committedDB cfg req orderNumber newOrderId db validatedCartItems)

/-- Example configuration: gift product 1, minimum subtotal 1000 (the
FreeGiftService defaults). -/
def cfgEx : FreeGiftConfig := { freeGiftProductId := 1, minSubtotal := 1000 }

/-- A product store holding the flagged gift product and a regular product. -/
def storeEx : List Product :=
  [{ id := 1, price := 0, is_active := true, is_free_gift := true },
   { id := 2, price := 600, is_active := true, is_free_gift := false }]

/-- A store in which product 1 exists but is not flagged is_free_gift. -/
def storeNoGiftEx : List Product :=
  [{ id := 1, price := 99, is_active := true, is_free_gift := false },
   { id := 2, price := 600, is_active := true, is_free_gift := false }]

/-- A tampered cart holding two copies of the gift line. -/
def dupGiftCartEx : List CartItem := [⟨1, 1, 0⟩, ⟨1, 1, 0⟩]

/-- An order already reconciled to paid. -/
def paidOrderEx : OrderRow :=
  { id := 10, order_number := "ORD-20240101-12345", customer_phone := "0812345678",
    customer_email := "somchai@example.com", customer_name := "Somchai P",
    shipping_address_line := "1 Rama Road", province := "Bangkok",
    district := "Bang Rak", subdistrict := "Si Phraya", postal_code := "10500",
    total_amount := 1200, payment_status := .paid, fulfill_status := .pending }

/-- A second order still awaiting payment. -/
def pendingOrderEx : OrderRow :=
  { paidOrderEx with
    id := 11
    order_number := "ORD-20240102-54321"
    payment_status := .pending }

/-- The pending payment row created when payment was initiated for order 10. -/
def paymentRowEx : PaymentRow :=
  { id := 5, order_id := 10, gateway := "tmw", amount := 1200,
    gateway_transaction_id := none, status := .pending, raw_response := none,
    created_at := 100 }

/-- Store state in which order 10 is already paid. -/
def dbPaidEx : DB :=
  { products := [], orders := [paidOrderEx], order_items := [],
    payments := [paymentRowEx] }

/-- Store state in which order 11 is still pending. -/
def dbPendingEx : DB :=
  { products := [], orders := [pendingOrderEx], order_items := [],
    payments := [{ paymentRowEx with id := 6, order_id := 11 }] }

/-- A (duplicate) delivery reporting failure for order 10. -/
def failedPayloadEx : WebhookPayload :=
  { transaction_id := some "TXN1", id := none, order_id := some "ORD-20240101-12345",
    order_number := none, status := some "failed", payment_status := none,
    amount := none }

/-- A delivery whose gateway status token is paysuccess, for order 11. -/
def paySuccessPayloadEx : WebhookPayload :=
  { transaction_id := some "TXN2", id := none, order_id := some "ORD-20240102-54321",
    order_number := none, status := some "paysuccess", payment_status := none,
    amount := none }

/-- A delivery reporting success for order 11. -/
def successPayloadEx : WebhookPayload :=
  { transaction_id := some "TXN3", id := none, order_id := some "ORD-20240102-54321",
    order_number := none, status := some "success", payment_status := none,
    amount := none }

/-- Shop store for checkout: the catalog from storeEx, no orders yet. -/
def dbShopEx : DB :=
  { products := storeEx, orders := [], order_items := [], payments := [] }

/-- A complete checkout request: 2 units of product 2; the client-sent unit
price 5 is ignored in favor of the stored price 600. -/
def orderReqEx : CreateOrderRequest :=
  { phone := "0812345678", email := "somchai@example.com",
    customer_name := "Somchai P", address_line := "1 Rama Road",
    province := "Bangkok", district := "Bang Rak", subdistrict := "Si Phraya",
    postal_code := "10500", cart_items := [⟨2, 2, 5⟩] }

/-! ## Free-gift rule engine: helper lemmas -/

theorem filter_removeFirstGift (g : Nat) (l : List CartItem) :
    (removeFirstGift g l).filter (fun i => i.product_id != g) =
      l.filter (fun i => i.product_id != g) := by
  induction l with
  | nil => rfl
  | cons it rest ih =>
    by_cases h : it.product_id = g
    · simp [removeFirstGift, h, List.filter_cons]
    · simp [removeFirstGift, h, List.filter_cons, ih]

theorem filter_forceFirstGift (g : Nat) (l : List CartItem) :
    (forceFirstGift g l).filter (fun i => i.product_id != g) =
      l.filter (fun i => i.product_id != g) := by
  induction l with
  | nil => rfl
  | cons it rest ih =>
    by_cases h : it.product_id = g
    · simp [forceFirstGift, h, List.filter_cons]
    · simp [forceFirstGift, h, List.filter_cons, ih]

theorem subtotal_removeFirstGift (g : Nat) (l : List CartItem) :
    cartSubtotalExcludingGift g (removeFirstGift g l) = cartSubtotalExcludingGift g l := by
  unfold cartSubtotalExcludingGift
  rw [filter_removeFirstGift]

theorem subtotal_forceFirstGift (g : Nat) (l : List CartItem) :
    cartSubtotalExcludingGift g (forceFirstGift g l) = cartSubtotalExcludingGift g l := by
  unfold cartSubtotalExcludingGift
  rw [filter_forceFirstGift]

theorem subtotal_append_giftLine (cfg : FreeGiftConfig) (l : List CartItem) :
    cartSubtotalExcludingGift cfg.freeGiftProductId (l ++ [freeGiftLine cfg]) =
      cartSubtotalExcludingGift cfg.freeGiftProductId l := by
  unfold cartSubtotalExcludingGift
  rw [List.filter_append]
  simp [freeGiftLine]

theorem hasFreeGift_append_giftLine (cfg : FreeGiftConfig) (l : List CartItem) :
    hasFreeGift cfg.freeGiftProductId (l ++ [freeGiftLine cfg]) = true := by
  simp [hasFreeGift, freeGiftLine]

theorem hasFreeGift_forceFirstGift (g : Nat) (l : List CartItem) :
    hasFreeGift g (forceFirstGift g l) = hasFreeGift g l := by
  induction l with
  | nil => rfl
  | cons it rest ih =>
    by_cases h : it.product_id = g
    · simp [forceFirstGift, hasFreeGift, h]
    · have ih2 : ((forceFirstGift g rest).any fun i => i.product_id == g) =
          rest.any (fun i => i.product_id == g) := by
        simpa [hasFreeGift] using ih
      simp [forceFirstGift, h, hasFreeGift, List.any_cons, ih2]

theorem hasFreeGift_eq_false_of_countP_zero (g : Nat) (l : List CartItem)
    (h : l.countP (fun i => i.product_id == g) = 0) : hasFreeGift g l = false := by
  rw [List.countP_eq_zero] at h
  simp only [hasFreeGift, List.any_eq_false]
  intro x hx
  exact h x hx

theorem hasFreeGift_removeFirstGift (g : Nat) (l : List CartItem)
    (hcount : l.countP (fun i => i.product_id == g) ≤ 1) :
    hasFreeGift g (removeFirstGift g l) = false := by
  induction l with
  | nil => rfl
  | cons it rest ih =>
    by_cases h : it.product_id = g
    · have hc : rest.countP (fun i => i.product_id == g) = 0 := by
        rw [List.countP_cons_of_pos] at hcount
        · omega
        · simpa using h
      simp only [removeFirstGift, if_pos (by simpa using h : (it.product_id == g) = true)]
      exact hasFreeGift_eq_false_of_countP_zero g rest hc
    · have hc : rest.countP (fun i => i.product_id == g) ≤ 1 := by
        rw [List.countP_cons_of_neg] at hcount
        · exact hcount
        · simpa using h
      simp only [removeFirstGift, if_neg (by simpa using h : ¬ (it.product_id == g) = true)]
      simp only [hasFreeGift, List.any_cons] at ih ⊢
      simp [h, ih hc]

theorem forceFirstGift_idem (g : Nat) (l : List CartItem) :
    forceFirstGift g (forceFirstGift g l) = forceFirstGift g l := by
  induction l with
  | nil => rfl
  | cons it rest ih =>
    by_cases h : it.product_id = g
    · simp [forceFirstGift, h]
    · simp [forceFirstGift, h, ih]

theorem forceFirstGift_append_giftLine (cfg : FreeGiftConfig) (l : List CartItem)
    (h : hasFreeGift cfg.freeGiftProductId l = false) :
    forceFirstGift cfg.freeGiftProductId (l ++ [freeGiftLine cfg]) =
      l ++ [freeGiftLine cfg] := by
  induction l with
  | nil => simp [forceFirstGift, freeGiftLine]
  | cons it rest ih =>
    simp only [hasFreeGift, List.any_cons, Bool.or_eq_false_iff] at h
    have hpid : ¬ it.product_id = cfg.freeGiftProductId := by
      simpa using h.1
    have ih2 := ih (by simpa [hasFreeGift] using h.2)
    simp [forceFirstGift, hpid, ih2]

/-! ## Branch equations for applyFreeGiftCore -/

theorem applyFreeGiftCore_add (cfg : FreeGiftConfig) (l : List CartItem)
    (hs : cfg.minSubtotal ≤ cartSubtotalExcludingGift cfg.freeGiftProductId l)
    (hh : hasFreeGift cfg.freeGiftProductId l = false) :
    applyFreeGiftCore cfg l = l ++ [freeGiftLine cfg] := by
  unfold applyFreeGiftCore
  rw [if_pos ⟨hs, hh⟩]

theorem applyFreeGiftCore_remove (cfg : FreeGiftConfig) (l : List CartItem)
    (hs : ¬ cfg.minSubtotal ≤ cartSubtotalExcludingGift cfg.freeGiftProductId l)
    (hh : hasFreeGift cfg.freeGiftProductId l = true) :
    applyFreeGiftCore cfg l = removeFirstGift cfg.freeGiftProductId l := by
  unfold applyFreeGiftCore
  rw [if_neg (by simp [hh, hs]), if_pos ⟨hs, hh⟩]

theorem applyFreeGiftCore_force (cfg : FreeGiftConfig) (l : List CartItem)
    (hs : cfg.minSubtotal ≤ cartSubtotalExcludingGift cfg.freeGiftProductId l)
    (hh : hasFreeGift cfg.freeGiftProductId l = true) :
    applyFreeGiftCore cfg l = forceFirstGift cfg.freeGiftProductId l := by
  unfold applyFreeGiftCore
  rw [if_neg (by simp [hh]), if_neg (by simp [hs]), if_pos hh]

theorem applyFreeGiftCore_noop (cfg : FreeGiftConfig) (l : List CartItem)
    (hs : ¬ cfg.minSubtotal ≤ cartSubtotalExcludingGift cfg.freeGiftProductId l)
    (hh : hasFreeGift cfg.freeGiftProductId l = false) :
    applyFreeGiftCore cfg l = l := by
  unfold applyFreeGiftCore
  rw [if_neg (by simp [hs]), if_neg (by simp [hh]), if_neg (by simp [hh])]

theorem applyFreeGiftCore_idem (cfg : FreeGiftConfig) (l : List CartItem)
    (hcount : l.countP (fun i => i.product_id == cfg.freeGiftProductId) ≤ 1) :
    applyFreeGiftCore cfg (applyFreeGiftCore cfg l) = applyFreeGiftCore cfg l := by
  by_cases hs : cfg.minSubtotal ≤ cartSubtotalExcludingGift cfg.freeGiftProductId l
  · by_cases hh : hasFreeGift cfg.freeGiftProductId l = true
    · rw [applyFreeGiftCore_force cfg l hs hh]
      rw [applyFreeGiftCore_force cfg _
        (by rw [subtotal_forceFirstGift]; exact hs)
        (by rw [hasFreeGift_forceFirstGift]; exact hh)]
      exact forceFirstGift_idem _ _
    · have hh2 : hasFreeGift cfg.freeGiftProductId l = false := by simpa using hh
      rw [applyFreeGiftCore_add cfg l hs hh2]
      rw [applyFreeGiftCore_force cfg _
        (by rw [subtotal_append_giftLine]; exact hs)
        (hasFreeGift_append_giftLine cfg l)]
      exact forceFirstGift_append_giftLine cfg l hh2
  · by_cases hh : hasFreeGift cfg.freeGiftProductId l = true
    · rw [applyFreeGiftCore_remove cfg l hs hh]
      exact applyFreeGiftCore_noop cfg _
        (by rw [subtotal_removeFirstGift]; exact hs)
        (hasFreeGift_removeFirstGift _ _ hcount)
    · have hh2 : hasFreeGift cfg.freeGiftProductId l = false := by simpa using hh
      rw [applyFreeGiftCore_noop cfg l hs hh2, applyFreeGiftCore_noop cfg l hs hh2]

theorem not_mem_gift_of_hasFreeGift_false (g : Nat) (l : List CartItem)
    (h : hasFreeGift g l = false) : ∀ i ∈ l, i.product_id ≠ g := by
  intro i hi
  simp only [hasFreeGift, List.any_eq_false] at h
  simpa using h i hi

theorem mem_forceFirstGift_giftLine (g : Nat) (l : List CartItem)
    (h : hasFreeGift g l = true) :
    (⟨g, 1, 0⟩ : CartItem) ∈ forceFirstGift g l := by
  induction l with
  | nil => simp [hasFreeGift] at h
  | cons it rest ih =>
    by_cases hpid : it.product_id = g
    · simp only [forceFirstGift, if_pos (by simpa using hpid : (it.product_id == g) = true)]
      exact List.mem_cons.mpr (Or.inl (by rw [← hpid]))
    · have hrest : hasFreeGift g rest = true := by
        simpa [hasFreeGift, List.any_cons, hpid] using h
      simp only [forceFirstGift, if_neg (by simpa using hpid : ¬ (it.product_id == g) = true)]
      exact List.mem_cons.mpr (Or.inr (ih hrest))

theorem gift_lines_forceFirstGift (g : Nat) (l : List CartItem)
    (hcount : l.countP (fun i => i.product_id == g) ≤ 1) :
    ∀ i ∈ forceFirstGift g l, i.product_id = g → i = ⟨g, 1, 0⟩ := by
  induction l with
  | nil => intro i hi; simp [forceFirstGift] at hi
  | cons it rest ih =>
    intro i hi hpidI
    by_cases hpid : it.product_id = g
    · have hc0 : rest.countP (fun i => i.product_id == g) = 0 := by
        rw [List.countP_cons_of_pos _ _ (by simpa using hpid)] at hcount
        omega
      simp only [forceFirstGift, if_pos (by simpa using hpid : (it.product_id == g) = true)] at hi
      rcases List.mem_cons.mp hi with hi | hi
      · rw [hi]; rw [hi] at hpidI; simp_all
      · have := List.countP_eq_zero.mp hc0 i hi
        simp [hpidI] at this
    · have hc : rest.countP (fun i => i.product_id == g) ≤ 1 := by
        rw [List.countP_cons_of_neg _ _ (by simpa using hpid)] at hcount
        exact hcount
      simp only [forceFirstGift, if_neg (by simpa using hpid : ¬ (it.product_id == g) = true)] at hi
      rcases List.mem_cons.mp hi with hi | hi
      · rw [hi] at hpidI; exact absurd hpidI hpid
      · exact ih hc i hi hpidI

/-- C5 counterexample: the claim quantifies over every cart and configuration,
but (a) on a cart holding two copies of the gift line, whose non-gift subtotal
0 is below the 1000 threshold, applyFreeGiftRules removes only the first copy,
so a gift line is still present below the threshold; and (b) with a configured
threshold of 0 the empty cart (subtotal 0 ≥ 0) does receive the gift line. -/
theorem freeGift_boundary_counterexample :
    (cartSubtotalExcludingGift cfgEx.freeGiftProductId dupGiftCartEx <
        cfgEx.minSubtotal ∧
      hasFreeGift cfgEx.freeGiftProductId
        (applyFreeGiftRules cfgEx storeEx dupGiftCartEx) = true) ∧
    applyFreeGiftRules { freeGiftProductId := 1, minSubtotal := 0 } storeEx [] =
      [freeGiftLine { freeGiftProductId := 1, minSubtotal := 0 }] := by
  refine ⟨⟨by norm_num [cartSubtotalExcludingGift, dupGiftCartEx, cfgEx], ?_⟩, ?_⟩
  · norm_num [applyFreeGiftRules, getFreeGiftProduct, applyFreeGiftCore,
      cartSubtotalExcludingGift, hasFreeGift, removeFirstGift, freeGiftLine,
      cfgEx, storeEx, dupGiftCartEx]
  · norm_num [applyFreeGiftRules, getFreeGiftProduct, applyFreeGiftCore,
      cartSubtotalExcludingGift, hasFreeGift, freeGiftLine, storeEx]

/-- C5 (amended): for a configuration whose gift product exists in the store
and a cart in which the gift product occurs at most once, after
applyFreeGiftRules the gift line (quantity 1, unit price 0) is present exactly
when the non-gift subtotal is at least minSubtotal, every gift line in the
result is normalized to quantity 1 and price 0, and with a positive threshold
the empty cart (subtotal 0) never qualifies. -/
theorem applyFreeGiftRules_gift_boundary (cfg : FreeGiftConfig)
    (store : List Product) (p : Product) (l : List CartItem)
    (hfound : getFreeGiftProduct cfg store = some p)
    (hcount : l.countP (fun i => i.product_id == cfg.freeGiftProductId) ≤ 1) :
    ((freeGiftLine cfg ∈ applyFreeGiftRules cfg store l) ↔
      cfg.minSubtotal ≤ cartSubtotalExcludingGift cfg.freeGiftProductId l) ∧
    (∀ i ∈ applyFreeGiftRules cfg store l,
      i.product_id = cfg.freeGiftProductId → i = freeGiftLine cfg) ∧
    (0 < cfg.minSubtotal → applyFreeGiftRules cfg store [] = []) := by
  have hrules : applyFreeGiftRules cfg store l = applyFreeGiftCore cfg l := by
    simp [applyFreeGiftRules, hfound]
  have hrulesNil : applyFreeGiftRules cfg store [] = applyFreeGiftCore cfg [] := by
    simp [applyFreeGiftRules, hfound]
  have hnil : (0 < cfg.minSubtotal → applyFreeGiftRules cfg store [] = []) := by
    intro hpos
    rw [hrulesNil]
    exact applyFreeGiftCore_noop cfg []
      (by simpa [cartSubtotalExcludingGift] using not_le.mpr hpos) rfl
  rw [hrules]
  by_cases hs : cfg.minSubtotal ≤ cartSubtotalExcludingGift cfg.freeGiftProductId l
  · by_cases hh : hasFreeGift cfg.freeGiftProductId l = true
    · rw [applyFreeGiftCore_force cfg l hs hh]
      refine ⟨⟨fun _ => hs, fun _ => ?_⟩, fun i hi hpid => ?_, hnil⟩
      · exact mem_forceFirstGift_giftLine _ _ hh
      · exact gift_lines_forceFirstGift _ _ hcount i hi hpid
    · have hh2 : hasFreeGift cfg.freeGiftProductId l = false := by simpa using hh
      rw [applyFreeGiftCore_add cfg l hs hh2]
      refine ⟨⟨fun _ => hs, fun _ => by simp⟩, fun i hi hpid => ?_, hnil⟩
      rcases List.mem_append.mp hi with hi | hi
      · exact absurd hpid (not_mem_gift_of_hasFreeGift_false _ _ hh2 i hi)
      · simpa using hi
  · by_cases hh : hasFreeGift cfg.freeGiftProductId l = true
    · rw [applyFreeGiftCore_remove cfg l hs hh]
      have hnogift := hasFreeGift_removeFirstGift cfg.freeGiftProductId l hcount
      refine ⟨⟨fun hmem => ?_, fun hle => absurd hle hs⟩, fun i hi hpid => ?_, hnil⟩
      · exact absurd (rfl : (freeGiftLine cfg).product_id = cfg.freeGiftProductId)
          (not_mem_gift_of_hasFreeGift_false _ _ hnogift _ hmem)
      · exact absurd hpid (not_mem_gift_of_hasFreeGift_false _ _ hnogift i hi)
    · have hh2 : hasFreeGift cfg.freeGiftProductId l = false := by simpa using hh
      rw [applyFreeGiftCore_noop cfg l hs hh2]
      refine ⟨⟨fun hmem => ?_, fun hle => absurd hle hs⟩, fun i hi hpid => ?_, hnil⟩
      · exact absurd (rfl : (freeGiftLine cfg).product_id = cfg.freeGiftProductId)
          (not_mem_gift_of_hasFreeGift_false _ _ hh2 _ hmem)
      · exact absurd hpid (not_mem_gift_of_hasFreeGift_false _ _ hh2 i hi)

/-- C5 witness: the amended boundary theorem applied to the default
configuration and the cart [2 × product 2 at 600], whose subtotal 1200 meets
the 1000 threshold. -/
theorem applyFreeGiftRules_gift_boundary_witness :
    (freeGiftLine cfgEx ∈ applyFreeGiftRules cfgEx storeEx [⟨2, 2, 600⟩]) ↔
      cfgEx.minSubtotal ≤ cartSubtotalExcludingGift cfgEx.freeGiftProductId
        [⟨2, 2, 600⟩] :=
  (applyFreeGiftRules_gift_boundary cfgEx storeEx
    { id := 1, price := 0, is_active := true, is_free_gift := true }
    [⟨2, 2, 600⟩] rfl (by decide)).1

/-- C6 counterexample: on the duplicate-gift cart (subtotal 0, below the
threshold) the rule removes one gift copy per application, so applying it
twice differs from applying it once. -/
theorem applyFreeGiftRules_not_idempotent_on_dup_gift :
    applyFreeGiftRules cfgEx storeEx
        (applyFreeGiftRules cfgEx storeEx dupGiftCartEx) ≠
      applyFreeGiftRules cfgEx storeEx dupGiftCartEx := by
  norm_num [applyFreeGiftRules, getFreeGiftProduct, applyFreeGiftCore,
    cartSubtotalExcludingGift, hasFreeGift, removeFirstGift, freeGiftLine,
    cfgEx, storeEx, dupGiftCartEx]

/-- C6 (amended): applyFreeGiftRules is idempotent on every cart in which the
configured gift product occurs at most once (in particular on every cart that
can reach it through the server-side validation, which strips gift lines). -/
theorem applyFreeGiftRules_idem (cfg : FreeGiftConfig) (store : List Product)
    (l : List CartItem)
    (hcount : l.countP (fun i => i.product_id == cfg.freeGiftProductId) ≤ 1) :
    applyFreeGiftRules cfg store (applyFreeGiftRules cfg store l) =
      applyFreeGiftRules cfg store l := by
  simp only [applyFreeGiftRules]
  cases hfind : getFreeGiftProduct cfg store with
  | none => rfl
  | some p => exact applyFreeGiftCore_idem cfg l hcount

/-- C6 witness: idempotence at the default configuration on a concrete
gift-free cart that crosses the threshold. -/
theorem applyFreeGiftRules_idem_witness :
    applyFreeGiftRules cfgEx storeEx (applyFreeGiftRules cfgEx storeEx [⟨2, 2, 600⟩]) =
      applyFreeGiftRules cfgEx storeEx [⟨2, 2, 600⟩] :=
  applyFreeGiftRules_idem cfgEx storeEx [⟨2, 2, 600⟩] (by decide)

/-- C10: when getFreeGiftProduct finds no product flagged is_free_gift under
the configured id (or the lookup failed, which also yields null),
applyFreeGiftRules returns every input cart unchanged: no gift line is added
whatever the subtotal, and a client-supplied gift line is neither removed nor
normalized. -/
theorem applyFreeGiftRules_gift_product_missing (cfg : FreeGiftConfig)
    (store : List Product) (items : List CartItem)
    (hnone : getFreeGiftProduct cfg store = none) :
    applyFreeGiftRules cfg store items = items := by
  simp [applyFreeGiftRules, hnone]

/-- C10 witness: with product 1 present but not flagged as the free gift, a
cart above the threshold that also carries a tampered gift line (quantity 5,
price 99) comes back exactly as submitted. -/
theorem applyFreeGiftRules_gift_product_missing_witness :
    applyFreeGiftRules cfgEx storeNoGiftEx [⟨2, 2, 600⟩, ⟨1, 5, 99⟩] =
      [⟨2, 2, 600⟩, ⟨1, 5, 99⟩] :=
  applyFreeGiftRules_gift_product_missing cfgEx storeNoGiftEx
    [⟨2, 2, 600⟩, ⟨1, 5, 99⟩] rfl

/-! ## Webhook reconciler: helper lemmas -/

theorem sendNotification_never_errors (provider : SmsProviderOutcome)
    (phone message : String) :
    ∃ b, sendNotification provider phone message = .ok b := by
  cases provider with
  | ok => exact ⟨true, rfl⟩
  | throws m => exact ⟨false, rfl⟩

theorem updateOrderPaymentStatus_mem (orders : List OrderRow) (oid : Nat)
    (st : OrderPayStatus) :
    ∀ o ∈ updateOrderPaymentStatus orders oid st, o.id = oid →
      o.payment_status = st := by
  intro o ho hid
  simp only [updateOrderPaymentStatus, List.mem_map] at ho
  obtain ⟨r, hr, hro⟩ := ho
  by_cases h : r.id = oid
  · rw [← hro]; simp [h]
  · rw [← hro] at hid
    simp [h] at hid

theorem normalizePaymentStatus_of_ne (s : Option String) (hs : s ≠ some "success") :
    normalizePaymentStatus s = PaymentStatus.failed := by
  simp [normalizePaymentStatus, hs]

theorem normalizeOrderStatus_of_ne (s : Option String) (hs : s ≠ some "success") :
    normalizeOrderStatus s = OrderPayStatus.failed := by
  simp [normalizeOrderStatus, hs]

theorem handleWebhook_noFault_eq (provider : SmsProviderOutcome) (db : DB)
    (payload : WebhookPayload) (order : OrderRow)
    (hord : findOrderByNumber db (jsStrOr payload.order_id payload.order_number) =
      some order) :
    handleWebhook .noFault provider db payload =
      ({ success := true, orderId := some order.id },
        reconciledDB db payload order.id) := by
  simp only [handleWebhook, hord]
  cases hsucc : jsStrOr payload.status payload.payment_status == some "success" with
  | false => rfl
  | true =>
    cases List.find? (fun o => o.id == order.id) (reconciledDB db payload order.id).orders with
    | none => rfl
    | some orow => cases provider <;> rfl

/-! ## Claims about the webhook reconciler -/

/-- C1 counterexample: order 10 is already paid, yet processing a later
delivery whose normalized status is failed rewrites its payment_status to
failed — the duplicate failed redelivery downgrades the paid order. -/
theorem paid_order_downgraded_counterexample :
    paidOrderEx.payment_status = OrderPayStatus.paid ∧
    (handleWebhook .noFault .ok dbPaidEx failedPayloadEx).2.orders =
      [{ paidOrderEx with payment_status := OrderPayStatus.failed }] :=
  ⟨rfl, by decide⟩

/-- C1 (amended): handleWebhook is last-write-wins: it never consults the
order's current payment_status, so after any delivery that finds an
already-paid order and carries a status other than "success", that order's row
reads failed. -/
theorem handleWebhook_downgrades_paid_order (provider : SmsProviderOutcome)
    (db : DB) (payload : WebhookPayload) (order : OrderRow)
    (hord : findOrderByNumber db (jsStrOr payload.order_id payload.order_number) =
      some order)
    (hpaid : order.payment_status = OrderPayStatus.paid)
    (hfail : jsStrOr payload.status payload.payment_status ≠ some "success") :
    ∀ o ∈ (handleWebhook .noFault provider db payload).2.orders,
      o.id = order.id → o.payment_status = OrderPayStatus.failed := by
  intro o ho hid
  rw [handleWebhook_noFault_eq provider db payload order hord] at ho
  have ho2 : o ∈ updateOrderPaymentStatus db.orders order.id
      (normalizeOrderStatus (jsStrOr payload.status payload.payment_status)) := ho
  have hmem := updateOrderPaymentStatus_mem db.orders order.id _ o ho2 hid
  rwa [normalizeOrderStatus_of_ne _ hfail] at hmem

/-- C1 witness: the amended theorem applied at the concrete paid order 10 and
the failed redelivery (the downgraded row is a member of the final table). -/
theorem handleWebhook_downgrades_paid_order_witness :
    ({ paidOrderEx with payment_status := OrderPayStatus.failed } ∈
        (handleWebhook .noFault .ok dbPaidEx failedPayloadEx).2.orders) ∧
    ({ paidOrderEx with payment_status := OrderPayStatus.failed } :
        OrderRow).payment_status = OrderPayStatus.failed :=
  ⟨by decide,
    handleWebhook_downgrades_paid_order .ok dbPaidEx failedPayloadEx paidOrderEx
      (by decide) rfl (by decide) _ (by decide) rfl⟩

/-- C2 counterexample: when the Order-status UPDATE throws, the Payment update
committed by the first statement stays visible while the order row is
untouched and the webhook reports failure — the two updates are not one atomic
transaction. -/
theorem webhook_not_atomic_counterexample :
    (handleWebhook .orderUpdateThrows .ok dbPendingEx successPayloadEx).2.payments ≠
      dbPendingEx.payments ∧
    (handleWebhook .orderUpdateThrows .ok dbPendingEx successPayloadEx).2.orders =
      dbPendingEx.orders ∧
    (handleWebhook .orderUpdateThrows .ok dbPendingEx successPayloadEx).1.success =
      false :=
  ⟨by decide, by decide, by decide⟩

/-- C2 (amended): the Payment update and the Order-status update are two
separate sequential statements with no enclosing transaction: whenever the
Order-status update throws, handleWebhook reports failure, the Payment update
remains visible, and the orders table is untouched. -/
theorem handleWebhook_sequential_updates (provider : SmsProviderOutcome) (db : DB)
    (payload : WebhookPayload) (order : OrderRow)
    (hord : findOrderByNumber db (jsStrOr payload.order_id payload.order_number) =
      some order) :
    handleWebhook .orderUpdateThrows provider db payload =
      ({ success := false, orderId := none }, paymentUpdatedDB db payload order.id) ∧
    (paymentUpdatedDB db payload order.id).orders = db.orders ∧
    (paymentUpdatedDB db payload order.id).payments =
      updateLatestPayment db.payments order.id
        (jsStrOr payload.transaction_id payload.id)
        (normalizePaymentStatus (jsStrOr payload.status payload.payment_status))
        payload := by
  refine ⟨?_, rfl, rfl⟩
  simp only [handleWebhook, hord]

/-- C2 witness: the amended theorem at the concrete pending order 11 and a
success delivery whose order-status update throws. -/
theorem handleWebhook_sequential_updates_witness :
    handleWebhook .orderUpdateThrows .ok dbPendingEx successPayloadEx =
      ({ success := false, orderId := none },
        paymentUpdatedDB dbPendingEx successPayloadEx pendingOrderEx.id) :=
  (handleWebhook_sequential_updates .ok dbPendingEx successPayloadEx pendingOrderEx
    (by decide)).1

/-- C3 counterexample: a delivery whose gateway status token is paysuccess is
normalized to the failed outcome, not the success outcome the claim requires:
the pending order ends failed and its payment row ends failed. -/
theorem paysuccess_normalized_to_failed :
    (handleWebhook .noFault .ok dbPendingEx paySuccessPayloadEx).2.orders =
      [{ pendingOrderEx with payment_status := OrderPayStatus.failed }] ∧
    (handleWebhook .noFault .ok dbPendingEx paySuccessPayloadEx).2.payments =
      [{ paymentRowEx with
          id := 6
          order_id := 11
          gateway_transaction_id := some "TXN2"
          status := PaymentStatus.failed
          raw_response := some paySuccessPayloadEx }] :=
  ⟨by decide, by decide⟩

/-- C3 (amended): the normalization maps exactly the token "success" to the
success outcome (payment status success, order status paid) and every other
extracted status value — "paysuccess" and "OK" included — to the failed
outcome, and handleWebhook writes exactly these normalized statuses to the
latest payment row and the order row. -/
theorem handleWebhook_status_normalization (provider : SmsProviderOutcome)
    (db : DB) (payload : WebhookPayload) (order : OrderRow)
    (hord : findOrderByNumber db (jsStrOr payload.order_id payload.order_number) =
      some order) :
    (normalizePaymentStatus (some "success") = PaymentStatus.success ∧
      normalizeOrderStatus (some "success") = OrderPayStatus.paid) ∧
    (∀ s : Option String, s ≠ some "success" →
      normalizePaymentStatus s = PaymentStatus.failed ∧
      normalizeOrderStatus s = OrderPayStatus.failed) ∧
    (handleWebhook .noFault provider db payload).2.orders =
      updateOrderPaymentStatus db.orders order.id
        (normalizeOrderStatus (jsStrOr payload.status payload.payment_status)) ∧
    (handleWebhook .noFault provider db payload).2.payments =
      updateLatestPayment db.payments order.id
        (jsStrOr payload.transaction_id payload.id)
        (normalizePaymentStatus (jsStrOr payload.status payload.payment_status))
        payload := by
  refine ⟨⟨rfl, rfl⟩,
    fun s hs => ⟨normalizePaymentStatus_of_ne s hs, normalizeOrderStatus_of_ne s hs⟩,
    ?_, ?_⟩
  · rw [handleWebhook_noFault_eq provider db payload order hord]
    rfl
  · rw [handleWebhook_noFault_eq provider db payload order hord]
    rfl

/-- C3 witness: the normalization theorem at the concrete paysuccess delivery
against pending order 11. -/
theorem handleWebhook_status_normalization_witness :
    (handleWebhook .noFault .ok dbPendingEx paySuccessPayloadEx).2.orders =
      updateOrderPaymentStatus dbPendingEx.orders pendingOrderEx.id
        (normalizeOrderStatus
          (jsStrOr paySuccessPayloadEx.status paySuccessPayloadEx.payment_status)) :=
  (handleWebhook_status_normalization .ok dbPendingEx paySuccessPayloadEx
    pendingOrderEx (by decide)).2.2.1

/-- C4: for a success-status delivery against an existing pending order, the
value handleWebhook resolves with does not depend on the SMS provider: a
dispatcher that always throws yields exactly the same result (and store) as
one that succeeds, and the webhook still reports success with the order id. -/
theorem handleWebhook_sms_failure_invisible (db : DB) (payload : WebhookPayload)
    (order : OrderRow)
    (hord : findOrderByNumber db (jsStrOr payload.order_id payload.order_number) =
      some order)
    (hpending : order.payment_status = OrderPayStatus.pending)
    (hsucc : jsStrOr payload.status payload.payment_status = some "success") :
    ∀ failing working : SmsProviderOutcome,
      handleWebhook .noFault failing db payload =
        handleWebhook .noFault working db payload ∧
      (handleWebhook .noFault failing db payload).1 =
        { success := true, orderId := some order.id } := by
  intro p1 p2
  rw [handleWebhook_noFault_eq p1 db payload order hord,
    handleWebhook_noFault_eq p2 db payload order hord]
  exact ⟨rfl, rfl⟩

/-- C4 witness: an SMS provider that always throws and one that succeeds give
the identical result on the concrete success delivery for pending order 11. -/
theorem handleWebhook_sms_failure_invisible_witness :
    pendingOrderEx.payment_status = OrderPayStatus.pending ∧
    handleWebhook .noFault (.throws "SMS provider down") dbPendingEx successPayloadEx =
      handleWebhook .noFault .ok dbPendingEx successPayloadEx :=
  ⟨rfl,
    ((handleWebhook_sms_failure_invisible dbPendingEx successPayloadEx pendingOrderEx
      (by decide) rfl (by decide)) (.throws "SMS provider down") .ok).1⟩

/-! ## Claims about createOrder -/

theorem foldl_add_eq_sum (f : CartItem → ℚ) (l : List CartItem) (a : ℚ) :
    l.foldl (fun s i => s + f i) a = a + (l.map f).sum := by
  induction l generalizing a with
  | nil => simp
  | cons x xs ih => simp [List.foldl_cons, ih, add_assoc]

theorem cartTotal_eq_sum_total_price (cfg : FreeGiftConfig) (oid : Nat)
    (items : List CartItem) :
    cartTotal items =
      ((orderItemRows cfg oid items).map (fun r => r.total_price)).sum := by
  unfold cartTotal orderItemRows
  rw [foldl_add_eq_sum (fun i => i.unit_price * i.quantity) items 0, zero_add,
    List.map_map]
  rfl

/-- C7: once the createOrder transaction has begun, any statement throwing
inside it (the order insert or the idx-th order-item insert, idx within the
validated line count) rolls the whole transaction back: the result is the
transaction failure and the store is exactly the initial one — no order row
and no order-item rows from the attempt are visible. -/
theorem createOrder_atomic (cfg : FreeGiftConfig) (fault : TxFault)
    (req : CreateOrderRequest) (orderNumber : String) (newOrderId : Nat) (db : DB)
    (items : List CartItem)
    (hfields : requiredFieldsCheck req = none)
    (hne : req.cart_items.isEmpty = false)
    (hval : validateAndApplyFreeGift cfg db.products req.cart_items = .ok items)
    (hfires : fault.fires items.length) :
    createOrder cfg fault req orderNumber newOrderId db = (.error .txFailed, db) := by
  cases fault with
  | noFault => exact absurd hfires (by simp [TxFault.fires])
  | orderInsertThrows =>
    simp only [createOrder, hfields, hne, hval, Bool.false_eq_true, if_false]
  | itemInsertThrows k =>
    simp only [TxFault.fires] at hfires
    simp only [createOrder, hfields, hne, hval, Bool.false_eq_true, if_false]
    rw [if_pos hfires]

/-- C7 witness: the atomicity theorem at a concrete request whose second
(gift) item insert throws; the store comes back unchanged. -/
theorem createOrder_atomic_witness :
    validateAndApplyFreeGift cfgEx dbShopEx.products orderReqEx.cart_items =
      .ok [⟨2, 2, 600⟩, ⟨1, 1, 0⟩] ∧
    createOrder cfgEx (.itemInsertThrows 1) orderReqEx "ORD-20240103-11111" 20
      dbShopEx = (.error .txFailed, dbShopEx) :=
  ⟨by norm_num [validateAndApplyFreeGift, validateCartItems, applyFreeGiftRules,
      getFreeGiftProduct, applyFreeGiftCore, cartSubtotalExcludingGift, hasFreeGift,
      freeGiftLine, cfgEx, storeEx, dbShopEx, orderReqEx],
    createOrder_atomic cfgEx (.itemInsertThrows 1) orderReqEx "ORD-20240103-11111"
      20 dbShopEx [⟨2, 2, 600⟩, ⟨1, 1, 0⟩] rfl rfl
      (by norm_num [validateAndApplyFreeGift, validateCartItems, applyFreeGiftRules,
        getFreeGiftProduct, applyFreeGiftCore, cartSubtotalExcludingGift, hasFreeGift,
        freeGiftLine, cfgEx, storeEx, dbShopEx, orderReqEx])
      (by norm_num [TxFault.fires])⟩

/-- C8: every successful createOrder stores an order row whose total_amount is
the sum of its order_items rows' total_price, and every stored item's
total_price equals quantity × unit_price. -/
theorem createOrder_total_invariant (cfg : FreeGiftConfig)
    (req : CreateOrderRequest) (orderNumber : String) (newOrderId : Nat) (db : DB)
    (items : List CartItem)
    (hfields : requiredFieldsCheck req = none)
    (hne : req.cart_items.isEmpty = false)
    (hval : validateAndApplyFreeGift cfg db.products req.cart_items = .ok items) :
    (createOrder cfg .noFault req orderNumber newOrderId db).1 =
      .ok { orderId := newOrderId, orderNumber := orderNumber,
            totalAmount := cartTotal items } ∧
    (createOrder cfg .noFault req orderNumber newOrderId db).2 =
      committedDB cfg req orderNumber newOrderId db items ∧
    (newOrderRow req orderNumber newOrderId (cartTotal items)).total_amount =
      ((orderItemRows cfg newOrderId items).map (fun r => r.total_price)).sum ∧
    ∀ r ∈ orderItemRows cfg newOrderId items,
      r.total_price = r.quantity * r.unit_price := by
  refine ⟨?_, ?_, ?_, ?_⟩
  · simp only [createOrder, hfields, hne, hval, Bool.false_eq_true, if_false]
  · simp only [createOrder, hfields, hne, hval, Bool.false_eq_true, if_false]
  · exact cartTotal_eq_sum_total_price cfg newOrderId items
  · intro r hr
    simp only [orderItemRows, List.mem_map] at hr
    obtain ⟨item, hitem, hrow⟩ := hr
    rw [← hrow]
    exact mul_comm item.unit_price item.quantity

/-- C8 witness: the invariant theorem at the concrete checkout (2 × 600 plus
the free gift: total 1200 = 1200 + 0). -/
theorem createOrder_total_invariant_witness :
    (newOrderRow orderReqEx "ORD-20240103-11111" 20
        (cartTotal [⟨2, 2, 600⟩, ⟨1, 1, 0⟩])).total_amount =
      ((orderItemRows cfgEx 20 [⟨2, 2, 600⟩, ⟨1, 1, 0⟩]).map
        (fun r => r.total_price)).sum :=
  (createOrder_total_invariant cfgEx orderReqEx "ORD-20240103-11111" 20 dbShopEx
    [⟨2, 2, 600⟩, ⟨1, 1, 0⟩] rfl rfl
    (by norm_num [validateAndApplyFreeGift, validateCartItems, applyFreeGiftRules,
      getFreeGiftProduct, applyFreeGiftCore, cartSubtotalExcludingGift, hasFreeGift,
      freeGiftLine, cfgEx, storeEx, dbShopEx, orderReqEx])).2.2.1

/-! ## Claim about createPayment -/

/-- C9: with unconfigured gateway credentials, createPayment is independent of
the gateway oracle (no network interaction can influence it), appends exactly
one pending payment row for the order, and returns the marked fallback
response: transactionId = MOCK-<paymentId>-<now> and paymentUrl =
"#fallback-" prefixed to it. -/
theorem createPayment_unconfigured_fallback (gw gw2 : GatewayOracle)
    (baseUrl : String) (order : OrderRow) (method : PayMethod) (db : DB)
    (newId newId2 now : Nat) :
    createPayment false gw baseUrl order method db newId newId2 now =
      createPayment false gw2 baseUrl order method db newId newId2 now ∧
    (createPayment false gw baseUrl order method db newId newId2 now).2.payments =
      db.payments ++
        [pendingPaymentRow order.id (methodGateway method) order.total_amount newId now] ∧
    (pendingPaymentRow order.id (methodGateway method) order.total_amount newId
        now).status = PaymentStatus.pending ∧
    (createPayment false gw baseUrl order method db newId newId2 now).1.transactionId =
      "MOCK-" ++ toString newId ++ "-" ++ toString now ∧
    (createPayment false gw baseUrl order method db newId newId2 now).1.paymentUrl =
      "#fallback-" ++
        (createPayment false gw baseUrl order method db newId newId2 now).1.transactionId ∧
    (createPayment false gw baseUrl order method db newId newId2 now).2.orders =
      db.orders :=
  ⟨rfl, rfl, rfl, rfl, rfl, rfl⟩
